/-
Verification of the xhub-chat-docs repository: a shallow embedding of its
React components (ScrollProgress, ShinyText, HomepageFeatures/Feature, Root),
its sidebar configuration and its Docusaurus site configuration, together
with proofs of the behavioural properties stated in the specification.
-/

import Mathlib

set_option autoImplicit false

namespace XHubChatDocs

/-! ## A model of JavaScript numbers for the scroll computation

`handleScroll` in `src/components/ScrollProgress/index.tsx` computes
`(scrollTop / (documentHeight - windowHeight)) * 100` with JavaScript
numbers and stores `Math.min(·, 100)`.  JavaScript division can produce
`NaN` (0/0) or signed infinities (x/0 with x ≠ 0), so numbers are modelled
as rationals extended by those three special values.  Rounding of IEEE
doubles is immaterial to the claims (they concern exact clamping
boundaries reachable with exactly representable values), so the finite
values are exact rationals. -/

inductive JSVal where
  | num (q : ℚ)
  | nan
  | inf
  | negInf
deriving DecidableEq, Repr

/-- JavaScript division `a / b`: ordinary division for `b ≠ 0`;
`0 / 0 = NaN`; `a / 0 = ±Infinity` for `a ≠ 0` (the denominator produced
by `documentHeight - windowHeight` is `+0` when the two are equal). -/
def jsDiv (a b : ℚ) : JSVal :=
  if b ≠ 0 then JSVal.num (a / b)
  else if a = 0 then JSVal.nan
  else if 0 < a then JSVal.inf
  else JSVal.negInf

/-- Multiplication of a JavaScript value by a positive finite constant
(used only with `c = 100`): `NaN` and the infinities are absorbing. -/
def jsMulPos (v : JSVal) (c : ℚ) : JSVal :=
  match v with
  | JSVal.num q => JSVal.num (q * c)
  | JSVal.nan => JSVal.nan
  | JSVal.inf => JSVal.inf
  | JSVal.negInf => JSVal.negInf

/-- `Math.min`: returns `NaN` if either argument is `NaN`, otherwise the
smaller argument with the usual ordering on the extended number line. -/
def jsMin (a b : JSVal) : JSVal :=
  match a, b with
  | JSVal.nan, _ => JSVal.nan
  | _, JSVal.nan => JSVal.nan
  | JSVal.negInf, _ => JSVal.negInf
  | _, JSVal.negInf => JSVal.negInf
  | JSVal.inf, x => x
  | x, JSVal.inf => x
  | JSVal.num p, JSVal.num q => JSVal.num (min p q)

/-- The body of `handleScroll` (ScrollProgress/index.tsx, lines 24–30):
`scrollPercentage = (scrollTop / (documentHeight - windowHeight)) * 100`
and the stored value is `Math.min(scrollPercentage, 100)`.  The result is
the argument passed to `setScrollProgress`. -/
def handleScroll (windowHeight documentHeight scrollTop : ℚ) : JSVal :=
  jsMin (jsMulPos (jsDiv scrollTop (documentHeight - windowHeight)) 100) (JSVal.num 100)

/-! ## DOM event listeners registered by ScrollProgress

The mount effect of `ScrollProgress` runs
`window.addEventListener('scroll', handleScroll)` and returns the cleanup
`() => window.removeEventListener('scroll', handleScroll)`.  Listeners are
modelled as (event type, handler identity) pairs; the window's listener
registrations are a list, `addEventListener` appends and
`removeEventListener` erases the first matching registration, as the DOM
does for a listener that is present. -/

structure DomListener where
  eventType : String
  handlerId : Nat
deriving DecidableEq, Repr

def addEventListener (registered : List DomListener) (l : DomListener) :
    List DomListener :=
  registered ++ [l]

def removeEventListener (registered : List DomListener) (l : DomListener) :
    List DomListener :=
  registered.erase l

/-- The single listener created by the `ScrollProgress` effect: the
`handleScroll` closure registered for the `'scroll'` event. -/
def handleScrollListener : DomListener :=
  { eventType := "scroll", handlerId := 0 }

/-- The effect body of `ScrollProgress` (lines 23–36): starting from the
component's own registrations, add the scroll listener. -/
def scrollProgressMount (registered : List DomListener) : List DomListener :=
  addEventListener registered handleScrollListener

/-- The effect's cleanup function: remove that same listener. -/
def scrollProgressCleanup (registered : List DomListener) : List DomListener :=
  removeEventListener registered handleScrollListener

/-! ## Component props declared in this repository

Transcription of every prop declaration of the repository's own React
components.  `Feature` takes a `FeatureItem` (`title`, `emoji`,
`description`, `gradient`); `ShinyText` takes `ShinyTextProps` (`text`,
`disabled`, `speed`, `className`); the theme `Root` wrapper takes
`children : React.ReactNode`.  `ScrollProgress`, `CatButton`, `FooterRive`,
`HomepageFeatures`, `HomepageHeader` and `Home` take no props.  (The
`LightRays` component is imported but its declaration file is not part of
the repository sources.) -/

inductive PropType where
  | string
  | number
  | boolean
  | reactNode
deriving DecidableEq, Repr

structure PropDecl where
  component : String
  prop : String
  ty : PropType
deriving DecidableEq, Repr

def declaredProps : List PropDecl :=
  [ { component := "Feature", prop := "title", ty := PropType.string },
    { component := "Feature", prop := "emoji", ty := PropType.string },
    { component := "Feature", prop := "description", ty := PropType.reactNode },
    { component := "Feature", prop := "gradient", ty := PropType.string },
    { component := "ShinyText", prop := "text", ty := PropType.string },
    { component := "ShinyText", prop := "disabled", ty := PropType.boolean },
    { component := "ShinyText", prop := "speed", ty := PropType.number },
    { component := "ShinyText", prop := "className", ty := PropType.string },
    { component := "Root", prop := "children", ty := PropType.reactNode } ]

/-- A prop type is primitive when it is string, number or boolean. -/
def isPrimitive : PropType → Bool
  | PropType.string => true
  | PropType.number => true
  | PropType.boolean => true
  | PropType.reactNode => false

/-! ## The sidebar configuration (sidebars.ts)

Transcription of the `sidebars` object: nine named sidebar entries, each a
list of items, where an item is either a doc id or a category with a label,
an optional `collapsible` flag and nested items. -/

inductive SidebarItem where
  | doc (id : String)
  | cat (label : String) (collapsible : Option Bool) (items : List SidebarItem)

def sidebars : List (String × List SidebarItem) :=
  [ ("gettingStartedSidebar",
     [SidebarItem.cat "🚀 Getting Started" (some false)
       [SidebarItem.doc "getting-started/installation",
        SidebarItem.doc "getting-started/quick-start",
        SidebarItem.doc "getting-started/requirements"]]),
    ("coreConceptsSidebar",
     [SidebarItem.cat "💡 Core Concepts" (some false)
       [SidebarItem.doc "core-concepts/overview",
        SidebarItem.doc "core-concepts/architecture",
        SidebarItem.doc "core-concepts/design-philosophy",
        SidebarItem.doc "core-concepts/faq"]]),
    ("apiSidebar",
     [SidebarItem.cat "📘 API Reference" (some false)
       [SidebarItem.doc "api/reference",
        SidebarItem.doc "api/hooks",
        SidebarItem.doc "api/classes",
        SidebarItem.doc "api/utils",
        SidebarItem.doc "api/config"]]),
    ("guidesSidebar",
     [SidebarItem.cat "📚 Guides" (some false)
       [SidebarItem.doc "guides/using-with-react",
        SidebarItem.doc "guides/integration-examples",
        SidebarItem.doc "guides/troubleshooting",
        SidebarItem.doc "guides/performance-tips"]]),
    ("packagesSidebar",
     [SidebarItem.cat "📦 Packages" (some false)
       [SidebarItem.doc "packages/overview/index",
        SidebarItem.cat "🎯 @xhub-chat/core" (some true)
          [SidebarItem.doc "packages/core/index",
           SidebarItem.doc "packages/core/api",
           SidebarItem.cat "Guides" none
             [SidebarItem.doc "packages/core/guides/storage",
              SidebarItem.doc "packages/core/guides/events",
              SidebarItem.doc "packages/core/guides/sync"]],
        SidebarItem.cat "⚛️ @xhub-chat/react" (some true)
          [SidebarItem.doc "packages/react/index",
           SidebarItem.doc "packages/react/hooks",
           SidebarItem.doc "packages/react/provider",
           SidebarItem.cat "Guides" none
             [SidebarItem.doc "packages/react/guides/provider",
              SidebarItem.doc "packages/react/guides/state-management",
              SidebarItem.doc "packages/react/guides/nextjs"]]]]),
    ("featuresSidebar",
     [SidebarItem.cat "🎯 Features" (some false)
       [SidebarItem.doc "features/index",
        SidebarItem.cat "📬 Messaging" (some true)
          [SidebarItem.doc "features/messaging/room-list",
           SidebarItem.doc "features/messaging/send-receive",
           SidebarItem.doc "features/messaging/unread-count"],
        SidebarItem.cat "📝 Posts" (some true)
          [SidebarItem.doc "features/posts/view-posts",
           SidebarItem.doc "features/posts/like-unlike",
           SidebarItem.doc "features/posts/comments",
           SidebarItem.doc "features/posts/reply-like-comments"]]]),
    ("platformsSidebar",
     [SidebarItem.cat "📦 Platforms" (some false)
       [SidebarItem.doc "platforms/core",
        SidebarItem.doc "platforms/react"]]),
    ("advancedSidebar",
     [SidebarItem.cat "🔧 Advanced" (some false)
       [SidebarItem.doc "advanced/plugin-system",
        SidebarItem.doc "advanced/architecture-deep-dive",
        SidebarItem.doc "advanced/lifecycle"]]),
    ("examplesSidebar",
     [SidebarItem.cat "💻 Examples" (some false)
       [SidebarItem.doc "examples/minimal-example",
        SidebarItem.doc "examples/custom-provider",
        SidebarItem.doc "examples/full-app"]]) ]

mutual

/-- A nested item never sets `collapsible` to `false`: every subcategory
that sets the flag sets it to `true`. -/
def nestedItemOk : SidebarItem → Bool
  | SidebarItem.doc _ => true
  | SidebarItem.cat _ c items => decide (c ≠ some false) && nestedItemsOk items

def nestedItemsOk : List SidebarItem → Bool
  | [] => true
  | i :: rest => nestedItemOk i && nestedItemsOk rest

end

/-- A top-level sidebar value is a one-element list whose element is a
category with `collapsible = false`, and all of its nested subcategories
that set `collapsible` set it to `true`. -/
def topEntryOk : List SidebarItem → Bool
  | [SidebarItem.cat _ c items] => decide (c = some false) && nestedItemsOk items
  | _ => false

/-! ## The ShinyText component

`ShinyText` (shinyText/ShinyText.tsx) renders
`<div className={'shiny-text ' + (disabled ? 'disabled' : '') + ' ' + className}
     style={{ animationDuration: speed + 's' }}>{text}</div>`
with defaults `disabled = false`, `speed = 5`, `className = ''`.  The DOM
derives an element's class list from the `class` attribute by splitting on
whitespace and discarding empty tokens; that tokenisation is modelled by
`splitSp`/`classTokens` below. -/

def consHead (c : Char) : List (List Char) → List (List Char)
  | [] => [[c]]
  | t :: ts => (c :: t) :: ts

/-- Split a character list at every space character. -/
def splitSp : List Char → List (List Char)
  | [] => [[]]
  | c :: rest => if c = ' ' then [] :: splitSp rest else consHead c (splitSp rest)

/-- The class tokens of a character list: the nonempty space-separated
fragments. -/
def classTokensL (l : List Char) : List String :=
  ((splitSp l).filter (fun t => !t.isEmpty)).map (fun t => String.mk t)

/-- The class tokens of a `class` attribute string. -/
def classTokens (s : String) : List String := classTokensL s.data

structure ShinyTextProps where
  text : String
  disabled : Option Bool
  speed : Option ℚ
  className : Option String

/-- The div rendered by `ShinyText`: its `class` attribute, its
`animationDuration` style and its text content. -/
structure RenderedDiv where
  className : String
  animationDuration : String
  children : String

def ShinyText (p : ShinyTextProps) : RenderedDiv :=
  let disabled := p.disabled.getD false
  let speed := p.speed.getD 5
  let className := p.className.getD ""
  { className := "shiny-text " ++ (if disabled then "disabled" else "") ++ " "
      ++ className
    animationDuration := toString speed ++ "s"
    children := p.text }

/-- Props with `disabled = false` whose caller-supplied `className` is the
string `"disabled"`. -/
def clashProps : ShinyTextProps :=
  { text := "hi", disabled := some false, speed := none, className := some "disabled" }

/-- The props of the one `ShinyText` call site in the repository
(`<ShinyText text="AI-Powered" />` on the home page). -/
def shinyTextHome : ShinyTextProps :=
  { text := "AI-Powered", disabled := none, speed := none, className := none }

/-! ## The site configuration (docusaurus.config.ts) -/

/-- The fields of the site configuration relevant to build-time error
handling, transcribed from `docusaurus.config.ts`. -/
structure SiteConfig where
  title : String
  onBrokenLinks : String
deriving DecidableEq, Repr

def config : SiteConfig :=
  { title := "XHub Chat", onBrokenLinks := "throw" }

/-- Modelled from the spec: the site generator (Docusaurus, external to
this repository) handles broken internal links at build time, and its
broken-links setting makes the build fail exactly when `onBrokenLinks` is
`'throw'`. -/
def generatorFailsBuildOnBrokenLinks (onBrokenLinks : String) : Bool :=
  onBrokenLinks == "throw"

/-- Whether a component's source contains any error-handling branch
(try/catch, promise rejection handler, or error boundary); transcribed
from each component source file in the repository — none contains one. -/
def componentErrorBranches : List (String × Bool) :=
  [("ScrollProgress", false), ("CatButton", false), ("FooterRive", false),
   ("Feature", false), ("HomepageFeatures", false), ("ShinyText", false),
   ("HomepageHeader", false), ("Home", false), ("Root", false)]

/-! ## C1–C3: behaviour of the scroll-progress computation -/

/-- C1 (counterexample).  The claim says the stored value is the percentage
clamped to [0, 100] and in particular never below 0.  The code only applies
`Math.min(·, 100)`: with `windowHeight = 2`, `documentHeight = 1`,
`scrollTop = 1` the stored value is `-100`, which is below 0 and differs
from the clamped value `max 0 (min ((1 / (1 - 2)) * 100) 100) = 0`. -/
theorem handleScroll_not_clamped_below_zero :
    handleScroll 2 1 1 = JSVal.num (-100) ∧
    ¬ (0 : ℚ) ≤ -100 ∧
    JSVal.num (-100) ≠ JSVal.num (max 0 (min ((1 / (1 - 2) : ℚ) * 100) 100)) := by
  refine ⟨?_, by norm_num, ?_⟩ <;>
    norm_num [handleScroll, jsDiv, jsMulPos, jsMin]

/-- C1 (amended).  The stored value equals `min(percentage, 100)` — an upper
clamp only, so it is never above 100; whenever the document is strictly
taller than the window and the scroll offset is nonnegative (every state the
browser can produce), the value is also nonnegative, hence lies in
[0, 100]. -/
theorem handleScroll_min_clamp (windowHeight documentHeight scrollTop : ℚ)
    (hlt : windowHeight < documentHeight) (hst : 0 ≤ scrollTop) :
    handleScroll windowHeight documentHeight scrollTop =
      JSVal.num (min (scrollTop / (documentHeight - windowHeight) * 100) 100) ∧
    0 ≤ min (scrollTop / (documentHeight - windowHeight) * 100) 100 ∧
    min (scrollTop / (documentHeight - windowHeight) * 100) 100 ≤ 100 := by
  have hpos : (0 : ℚ) < documentHeight - windowHeight := by linarith
  have hd : documentHeight - windowHeight ≠ 0 := ne_of_gt hpos
  refine ⟨by simp [handleScroll, jsDiv, jsMulPos, jsMin, hd], ?_, min_le_right _ _⟩
  have hq : 0 ≤ scrollTop / (documentHeight - windowHeight) * 100 := by positivity
  exact le_min hq (by norm_num)

/-- Witness for `handleScroll_min_clamp` at `windowHeight = 1`,
`documentHeight = 3`, `scrollTop = 1` (the stored value is 50). -/
theorem handleScroll_min_clamp_witness :
    handleScroll 1 3 1 = JSVal.num (min ((1 : ℚ) / (3 - 1) * 100) 100) ∧
    0 ≤ min ((1 : ℚ) / (3 - 1) * 100) 100 ∧
    min ((1 : ℚ) / (3 - 1) * 100) 100 ≤ 100 :=
  handleScroll_min_clamp 1 3 1 (by norm_num) (by norm_num)

/-- C2.  When the document is strictly taller than the window and
`scrollTop = documentHeight - windowHeight` (the bottom of the document),
the stored progress value is exactly 100. -/
theorem handleScroll_at_bottom (windowHeight documentHeight : ℚ)
    (hlt : windowHeight < documentHeight) :
    handleScroll windowHeight documentHeight (documentHeight - windowHeight) =
      JSVal.num 100 := by
  have hd : documentHeight - windowHeight ≠ 0 := sub_ne_zero.mpr (ne_of_gt hlt)
  simp [handleScroll, jsDiv, jsMulPos, jsMin, hd, div_self hd]

/-- Witness for `handleScroll_at_bottom` at `windowHeight = 1`,
`documentHeight = 2`. -/
theorem handleScroll_at_bottom_witness :
    handleScroll 1 2 (2 - 1) = JSVal.num 100 :=
  handleScroll_at_bottom 1 2 (by norm_num)

/-- C3.  The division is unguarded: when `documentHeight = windowHeight`
and `scrollTop = 0`, the percentage is `0 / 0 = NaN`, `Math.min(NaN, 100)`
is `NaN`, and so the value passed to `setScrollProgress` is `NaN` — not a
number in [0, 100]. -/
theorem handleScroll_nan_at_equal_heights :
    ∀ h : ℚ, handleScroll h h 0 = JSVal.nan ∧
      ∀ q : ℚ, handleScroll h h 0 ≠ JSVal.num q := by
  intro h
  constructor
  · simp [handleScroll, jsDiv, jsMulPos, jsMin, sub_self]
  · intro q
    simp [handleScroll, jsDiv, jsMulPos, jsMin, sub_self]

/-! ## C4: the listener registered by ScrollProgress is balanced -/

/-- C4.  The `ScrollProgress` mount effect registers exactly one listener —
a single window `'scroll'` listener — and the cleanup removes exactly that
listener, so after unmount the component's set of registrations is
empty. -/
theorem scrollProgress_single_listener :
    scrollProgressMount [] = [handleScrollListener] ∧
    handleScrollListener.eventType = "scroll" ∧
    scrollProgressCleanup (scrollProgressMount []) = [] := by
  refine ⟨rfl, rfl, ?_⟩
  decide

/-! ## C5: prop types of the repository's components -/

/-- C5 (counterexample).  Not every declared component prop has type
string, number or boolean: `Feature`'s `description` prop is declared with
type `ReactNode` (`FeatureItem.description`), so the universally
quantified claim fails on it. -/
theorem not_all_props_primitive :
    ({ component := "Feature", prop := "description",
       ty := PropType.reactNode } : PropDecl) ∈ declaredProps ∧
    isPrimitive PropType.reactNode = false ∧
    declaredProps.all (fun p => isPrimitive p.ty) = false := by
  decide

/-- C5 (amended).  Every component prop declared by the repository's own
React components has type string, number or boolean, except exactly two
ReactNode-typed props: `Feature`'s `description` and the theme `Root`
wrapper's `children`. -/
theorem props_primitive_except_two_reactNode :
    declaredProps.filter (fun p => !isPrimitive p.ty) =
      [{ component := "Feature", prop := "description",
         ty := PropType.reactNode },
       { component := "Root", prop := "children",
         ty := PropType.reactNode }] := by
  decide

/-! ## C6: shape of the sidebar configuration -/

/-- C6.  The sidebars object has exactly nine entries,
`gettingStartedSidebar` through `examplesSidebar`; each is a one-element
list whose element is a category with `collapsible = false`, and every
nested subcategory that sets `collapsible` sets it to `true`. -/
theorem sidebars_shape :
    sidebars.map Prod.fst =
      ["gettingStartedSidebar", "coreConceptsSidebar", "apiSidebar",
       "guidesSidebar", "packagesSidebar", "featuresSidebar",
       "platformsSidebar", "advancedSidebar", "examplesSidebar"] ∧
    sidebars.length = 9 ∧
    sidebars.all (fun e => topEntryOk e.2) = true := by
  refine ⟨rfl, rfl, rfl⟩

/-! ## C8: error handling is delegated to the site generator -/

/-- C8.  No component of the repository contains an error-handling branch,
and the site configuration sets `onBrokenLinks` to `'throw'`, which
instructs the (external) site generator to fail the build on broken
internal links. -/
theorem error_handling_delegated_to_generator :
    componentErrorBranches.all (fun c => !c.2) = true ∧
    config.onBrokenLinks = "throw" ∧
    generatorFailsBuildOnBrokenLinks config.onBrokenLinks = true :=
  ⟨rfl, rfl, rfl⟩

/-! ## C7: the ShinyText rendering -/

theorem splitSp_ne_nil (l : List Char) : splitSp l ≠ [] := by
  cases l with
  | nil => simp [splitSp]
  | cons c rest =>
    by_cases hc : c = ' '
    · simp [splitSp, hc]
    · simp only [splitSp, if_neg hc]
      cases splitSp rest <;> simp [consHead]

theorem consHead_append (c : Char) (l m : List (List Char)) (h : l ≠ []) :
    consHead c (l ++ m) = consHead c l ++ m := by
  cases l with
  | nil => exact absurd rfl h
  | cons t ts => simp [consHead]

theorem splitSp_append_space (a b : List Char) :
    splitSp (a ++ ' ' :: b) = splitSp a ++ splitSp b := by
  induction a with
  | nil => simp [splitSp]
  | cons c rest ih =>
    rw [List.cons_append]
    by_cases hc : c = ' '
    · simp [splitSp, hc, ih]
    · simp only [splitSp, if_neg hc, List.append_eq, ih]
      exact consHead_append c _ _ (splitSp_ne_nil rest)

theorem classTokensL_append_space (a b : List Char) :
    classTokensL (a ++ ' ' :: b) = classTokensL a ++ classTokensL b := by
  simp [classTokensL, splitSp_append_space]

/-- The class tokens of the string built by `ShinyText`'s template literal:
`shiny-text`, then the tokens of the disabled fragment, then the tokens of
the caller-supplied `className`. -/
theorem classTokens_shiny (d c : String) :
    classTokens ("shiny-text " ++ d ++ " " ++ c) =
      "shiny-text" :: (classTokens d ++ classTokens c) := by
  have h1 : "shiny-text ".data = "shiny-text".data ++ [' '] := rfl
  have h2 : " ".data = [' '] := rfl
  have hdata : ("shiny-text " ++ d ++ " " ++ c).data
      = "shiny-text".data ++ ' ' :: (d.data ++ ' ' :: c.data) := by
    simp [String.data_append, h1, h2]
  show classTokensL ("shiny-text " ++ d ++ " " ++ c).data = _
  rw [hdata, classTokensL_append_space, classTokensL_append_space]
  have h3 : classTokensL "shiny-text".data = ["shiny-text"] := rfl
  rw [h3]
  rfl

/-- C7 (counterexample).  The claimed "'disabled' class appears iff the
disabled prop is true" fails: with `disabled = false` and
`className = "disabled"`, the rendered class list contains `'disabled'`
even though the prop is false. -/
theorem shinyText_disabled_class_clash :
    clashProps.disabled = some false ∧
    "disabled" ∈ classTokens (ShinyText clashProps).className := by
  constructor
  · rfl
  · decide

/-- C7 (amended).  `ShinyText` is a pure function of its props (its
embedding is a function): the rendered `animationDuration` equals
`${speed}s` with `speed` defaulting to 5 (omitting `speed` yields `"5s"`),
and — provided the caller-supplied `className` does not itself contain the
token `'disabled'` — the `'disabled'` class appears in the rendered class
list iff the `disabled` prop (defaulting to false) is true. -/
theorem shinyText_render (p : ShinyTextProps)
    (h : "disabled" ∉ classTokens (p.className.getD "")) :
    (ShinyText p).animationDuration = toString (p.speed.getD 5) ++ "s" ∧
    (p.speed = none → (ShinyText p).animationDuration = "5s") ∧
    ("disabled" ∈ classTokens (ShinyText p).className ↔
      p.disabled.getD false = true) := by
  refine ⟨rfl, ?_, ?_⟩
  · intro hs
    simp only [ShinyText, hs]
    rfl
  · have hcls : (ShinyText p).className
        = "shiny-text " ++ (if p.disabled.getD false then "disabled" else "") ++ " "
          ++ (p.className.getD "") := rfl
    rw [hcls, classTokens_shiny]
    have hdis : classTokens "disabled" = ["disabled"] := rfl
    have hemp : classTokens "" = [] := rfl
    by_cases hd : p.disabled.getD false = true
    · simp [hd, hdis]
    · simp only [hd, if_neg, Bool.not_eq_true] at *
      simp [hd, hemp, h]

/-- Witness for `shinyText_render` at the repository's one call site,
`<ShinyText text="AI-Powered" />` (all optional props omitted). -/
theorem shinyText_render_witness :
    (ShinyText shinyTextHome).animationDuration
        = toString (shinyTextHome.speed.getD 5) ++ "s" ∧
    (shinyTextHome.speed = none →
      (ShinyText shinyTextHome).animationDuration = "5s") ∧
    ("disabled" ∈ classTokens (ShinyText shinyTextHome).className ↔
      shinyTextHome.disabled.getD false = true) :=
  shinyText_render shinyTextHome (by decide)

end XHubChatDocs
